import Mathlib

/-!
Shallow embedding of the rendering-style orchestration subsystem of
CSM-Dream-Team/vr-intro (src/src/draw/uber.rs together with the uniform-block
definitions of src/src/lib.rs).

Scalar values of the program (f32 fields of the uniform blocks, vertex
coordinates) are embedded as rationals: the orchestration core only copies,
compares and selects these values — the physically-based shading arithmetic is
out of scope, so no rounding behaviour is observable at this layer.

GPU resources (texture views, samplers, vertex buffers, shader handles) are
embedded as opaque natural-number handles: the claims are about which resource
is bound and when buffers are written, never about texel contents.  The
encoder is embedded as the list of commands a call records, in order.
-/

namespace VrIntro

/-- Embedding of an `f32` value of the orchestration core. -/
abbrev F := ℚ

/-- A 3-component vector (`nalgebra::Vector3<f32>` / vertex position). -/
structure Vec3 where
  x : F
  y : F
  z : F
  deriving DecidableEq

/-- A 4-component vector (`[f32; 4]`). -/
structure Vec4 where
  x : F
  y : F
  z : F
  w : F
  deriving DecidableEq

/-- A 4×4 matrix (`[[f32; 4]; 4]`), row list of rows. -/
abbrev Mat4 := List (List F)

/-- A 3×3 rotation matrix (`nalgebra::Rotation3<f32>`). -/
abbrev Rot3 := List (List F)

/-- `Matrix4::identity()`. -/
def Matrix4.identity : Mat4 :=
  [[1, 0, 0, 0], [0, 1, 0, 0], [0, 0, 1, 0], [0, 0, 0, 1]]

/-- `Rotation3::to_homogeneous`: embed a 3×3 rotation as a 4×4 matrix. -/
def Rot3.toHomogeneous (r : Rot3) : Mat4 :=
  r.map (fun row => row ++ [0]) ++ [[0, 0, 0, 1]]

def cross3 (a b : Vec3) : Vec3 :=
  ⟨a.y * b.z - a.z * b.y, a.z * b.x - a.x * b.z, a.x * b.y - a.y * b.x⟩

def dot3 (a b : Vec3) : F :=
  a.x * b.x + a.y * b.y + a.z * b.z

def sub3 (a b : Vec3) : Vec3 :=
  ⟨a.x - b.x, a.y - b.y, a.z - b.z⟩

/-- `Point3::to_homogeneous`: a point gains homogeneous coordinate 1. -/
def pointToHomogeneous (p : Vec3) : Vec4 :=
  ⟨p.x, p.y, p.z, 1⟩

/-- `gfx::Rect` (u16 fields): a scissor/clip rectangle. -/
structure Rect where
  x : Nat
  y : Nat
  w : Nat
  h : Nat
  deriving DecidableEq

/-- `TransformBlock` of src/src/lib.rs: one eye's camera state for one draw. -/
structure TransformBlock where
  model : Mat4
  view : Mat4
  proj : Mat4
  eye : Vec4
  clip_offset : F
  deriving DecidableEq

/-- `ParamsBlock` of src/src/draw/uber.rs (gfx_defines block). -/
structure ParamsBlock where
  sun_matrix : Mat4
  sun_color : Vec4
  sun_in_env : F
  radiance_levels : Int
  gamma : F
  exposure : F
  deriving DecidableEq

/-- `gfx::state::Comparison` values used by the two depth presets. -/
inductive Comparison where
  | pass
  | lessEqual
  deriving DecidableEq

/-- The depth part of a pipeline-state object: `gfx::state::Depth`. -/
structure DepthMode where
  fun_ : Comparison
  write : Bool
  deriving DecidableEq

/-- `gfx::preset::depth::PASS_TEST`: test always passes, no depth write. -/
def PASS_TEST : DepthMode := ⟨Comparison.pass, false⟩

/-- `gfx::preset::depth::LESS_EQUAL_WRITE`. -/
def LESS_EQUAL_WRITE : DepthMode := ⟨Comparison.lessEqual, true⟩

/-- The pipeline-state data the claims observe: which depth preset the
pipeline declaration fixed (`bg` fixes PASS_TEST, `pl` fixes
LESS_EQUAL_WRITE).  Pipeline handles are otherwise opaque. -/
structure PsoDesc where
  depth : DepthMode
  deriving DecidableEq

/-- The background pipeline `bg` declares `gfx::preset::depth::PASS_TEST`. -/
def bgPso : PsoDesc := ⟨PASS_TEST⟩

/-- The foreground pipeline `pl` declares `gfx::preset::depth::LESS_EQUAL_WRITE`. -/
def plPso : PsoDesc := ⟨LESS_EQUAL_WRITE⟩

/-- A cube-mesh vertex (`Vert { pos }`). -/
structure Vert where
  pos : Vec3
  deriving DecidableEq

/-- `UberEnv`: the scene environment.  Texture handles opaque. -/
structure UberEnv where
  irradiance : Nat
  radiance : Nat
  sun_included : Bool
  sun_color : Vec4
  sun_rotation : Rot3
  radiance_levels : Nat
  deriving DecidableEq

/-- `UberBackground`: the background pipeline and its fixed cube mesh. -/
structure UberBackground where
  pso : PsoDesc
  mesh_verts : List Vert
  mesh_inds : List Nat
  deriving DecidableEq

/-- `UberMaterial`: the three per-draw material texture handles. -/
structure UberMaterial where
  normal : Nat
  albedo : Nat
  knobs : Nat
  deriving DecidableEq

/-- `UberInputs`: the orchestration state.  The two uniform GPU buffers are
singletons whose contents appear in recorded commands, so they carry no
in-memory data here; shader handles are construction artifacts the claims
never observe. -/
structure UberInputs where
  background : UberBackground
  transform : Option TransformBlock
  env : UberEnv
  exposure : F
  gamma : F
  params_update : Bool
  integrated_brdf : Nat
  shadow_depth : Nat
  deriving DecidableEq

/-- `UberInputs::set_env`. -/
def UberInputs.set_env (s : UberInputs) (env : UberEnv) : UberInputs :=
  { s with env := env, params_update := true }

/-- `UberInputs::mut_env`: hands out a mutable borrow of the environment and
pessimistically marks Params dirty.  The borrow is embedded as the mutation
the caller performs through it. -/
def UberInputs.mut_env (s : UberInputs) (f : UberEnv → UberEnv) : UberInputs :=
  { s with env := f s.env, params_update := true }

/-- `UberInputs::set_exposure`. -/
def UberInputs.set_exposure (s : UberInputs) (exposure : F) : UberInputs :=
  { s with exposure := exposure, params_update := true }

/-- `UberInputs::set_gamma`. -/
def UberInputs.set_gamma (s : UberInputs) (gamma : F) : UberInputs :=
  { s with gamma := gamma, params_update := true }

/-- `impl StyleInputs for UberInputs`: `fn transform` stores the block as the
pending Transform, overwriting any previous pending value. -/
def StyleInputs.transform (s : UberInputs) (block : TransformBlock) : UberInputs :=
  { s with transform := some block }

/-- The foreground draw command as recorded: render-target, scissor, mesh
slice/buffer, the three material textures, and the shared environment /
BRDF / shadow textures, drawn with the foreground pipeline. -/
structure FgDrawCmd where
  pso : PsoDesc
  color : Nat
  depth : Nat
  scissor : Rect
  slice : Nat
  verts : Nat
  normal : Nat
  albedo : Nat
  knobs : Nat
  irradiance : Nat
  radiance : Nat
  integrated_brdf : Nat
  shadow_depth : Nat
  deriving DecidableEq

/-- The background draw command as recorded: the background pipeline, the
fixed cube mesh, the eye's clip rectangle and only the radiance texture. -/
structure BgDrawCmd where
  pso : PsoDesc
  color : Nat
  depth : Nat
  scissor : Rect
  mesh_verts : List Vert
  mesh_inds : List Nat
  radiance : Nat
  deriving DecidableEq

/-- One command recorded into the encoder. -/
inductive Cmd where
  | updateTransform (t : TransformBlock)
  | updateParams (p : ParamsBlock)
  | drawFg (d : FgDrawCmd)
  | drawBg (d : BgDrawCmd)
  deriving DecidableEq

def Cmd.isDraw : Cmd → Bool
  | .drawFg _ => true
  | .drawBg _ => true
  | _ => false

def Cmd.isUpdateTransform : Cmd → Bool
  | .updateTransform _ => true
  | _ => false

def Cmd.isUpdateParams : Cmd → Bool
  | .updateParams _ => true
  | _ => false

/-- The ParamsBlock value both draw paths build inline from the current
Environment, exposure and gamma (identical literal in `draw_raw` and
`clear_env`). -/
def deriveParams (s : UberInputs) : ParamsBlock :=
  { sun_matrix := Rot3.toHomogeneous s.env.sun_rotation
    sun_color := s.env.sun_color
    sun_in_env := if s.env.sun_included then 1 else 0
    radiance_levels := (s.env.radiance_levels : Int)
    gamma := s.gamma
    exposure := s.exposure }

/-- The construction-level error kinds.  Modelled from the spec: the
repository's `Error` type lives in src/src/error.rs, which is not among the
staged files; the spec names pipeline-compile and resource-creation failures
as the typed construction errors (§7). -/
inductive Error where
  | shaderCompile (which : Nat)
  | pipelineCreate
  | resourceCreate (which : Nat)
  deriving DecidableEq

/-- The `pl::Data` record `draw_raw` passes to `enc.draw`, as the recorded
foreground draw command. -/
def fgCmd (s : UberInputs) (color depth : Nat) (scissor : Rect)
    (slice : Nat) (buf : Nat) (mat : UberMaterial) : FgDrawCmd :=
  { pso := plPso
    color := color
    depth := depth
    scissor := scissor
    slice := slice
    verts := buf
    normal := mat.normal
    albedo := mat.albedo
    knobs := mat.knobs
    irradiance := s.env.irradiance
    radiance := s.env.radiance
    integrated_brdf := s.integrated_brdf
    shadow_depth := s.shadow_depth }

/-- `Style::draw_raw` for the uber style: flush the pending Transform if any,
flush Params if the dirty flag is set, then record one foreground draw.
Returns the result, the state after the call, and the commands recorded in
order.  Note the source tests `params_update` but never resets it. -/
def draw_raw (s : UberInputs) (color depth : Nat) (scissor : Rect)
    (slice : Nat) (buf : Nat) (mat : UberMaterial) :
    Except Error Unit × UberInputs × List Cmd :=
  let (tCmds, s1) :=
    match s.transform with
    | some t => ([Cmd.updateTransform t], { s with transform := none })
    | none => ([], s)
  let pCmds := if s1.params_update then [Cmd.updateParams (deriveParams s1)] else []
  (Except.ok (), s1, tCmds ++ pCmds ++ [Cmd.drawFg (fgCmd s1 color depth scissor slice buf mat)])

/-- One eye's descriptor.  Modelled from the spec: the `DrawParams` eye
contexts live in src/src/draw/mod.rs, which is not among the staged files;
the spec says the VR collaborator supplies per eye a view matrix, projection
matrix, eye-position, clip-offset and clip rectangle, used verbatim (§6).
`eye` is a point, homogenised on use as in `eye.eye.to_homogeneous()`. -/
structure EyeContext where
  eye : Vec3
  view : Mat4
  proj : Mat4
  clip_offset : F
  clip : Rect
  deriving DecidableEq

/-- The per-frame draw context.  Modelled from the spec (src/src/draw/mod.rs
is not among the staged files): two eye descriptors plus the shared color and
depth targets; the encoder is the command list a call returns. -/
structure DrawParams where
  left : EyeContext
  right : EyeContext
  color : Nat
  depth : Nat
  deriving DecidableEq

/-- The per-eye TransformBlock `clear_env` builds: identity model, the eye's
view/projection/eye-position/clip-offset verbatim. -/
def eyeTransform (e : EyeContext) : TransformBlock :=
  { eye := pointToHomogeneous e.eye
    model := Matrix4.identity
    view := e.view
    proj := e.proj
    clip_offset := e.clip_offset }

/-- `Painter::<UberStyle>::clear_env`: unconditionally write Params from the
current environment, then for each eye (left, then right) write the eye's
Transform and record one background draw.  It takes the inputs by immutable
borrow, so the orchestration state is returned unchanged. -/
def clear_env (s : UberInputs) (ctx : DrawParams) : UberInputs × List Cmd :=
  let perEye (e : EyeContext) : List Cmd :=
    [Cmd.updateTransform (eyeTransform e),
     Cmd.drawBg
       { pso := s.background.pso
         color := ctx.color
         depth := ctx.depth
         scissor := e.clip
         mesh_verts := s.background.mesh_verts
         mesh_inds := s.background.mesh_inds
         radiance := s.env.radiance }]
  (s, Cmd.updateParams (deriveParams s) :: (perEye ctx.left ++ perEye ctx.right))

/-- Which fallible factory/loader operations of one construction attempt
succeed.  Each field is one call site of `init` (or of `shadow_texture`,
which `init` calls first), in the factory's role as an external collaborator. -/
structure Factory where
  create_texture_ok : Bool
  view_shader_resource_ok : Bool
  view_depth_stencil_ok : Bool
  bg_shader_ok : Bool
  shader_ok : Bool
  bg_pso_ok : Bool
  brdf_ok : Bool
  radiance_tex_ok : Bool
  irradiance_tex_ok : Bool
  deriving DecidableEq

/-- The outcome of running `init`: a constructed state, a typed error
returned to the caller (the `?` operator), or a panic (an `unwrap`/`expect`
that failed). -/
inductive InitOutcome where
  | ok (s : UberInputs)
  | err (e : Error)
  | panicked (msg : String)
  deriving DecidableEq

def InitOutcome.isOk : InitOutcome → Bool
  | .ok _ => true
  | _ => false

def InitOutcome.isErr : InitOutcome → Bool
  | .err _ => true
  | _ => false

def InitOutcome.isPanicked : InitOutcome → Bool
  | .panicked _ => true
  | _ => false

/-- Opaque handles `init` hands out for the resources it creates. -/
def shadowDepthHandle : Nat := 0
def brdfHandle : Nat := 1
def radianceHandle : Nat := 2
def irradianceHandle : Nat := 3

/-- `shadow_texture`: creates the 512×512 depth texture, its shader-resource
view and its depth-stencil view.  All three creation calls are `unwrap`ed in
the source, so a failure of any of them is a panic, not a returned error;
`none` here stands for that panic. -/
def shadow_texture (f : Factory) : Option Nat :=
  if f.create_texture_ok then
    if f.view_shader_resource_ok then
      if f.view_depth_stencil_ok then some shadowDepthHandle
      else none
    else none
  else none

/-- `Rotation3::rotation_between` of the nalgebra collaborator, shallowly:
it fails exactly on a degenerate axis pair (zero or antiparallel vectors,
where no rotation axis is determined).  `init` only ever calls it on the
fixed pair (0,0,-1), (0,-1,0), for which the exact rotation (a quarter turn
about the x-axis) is returned; no claim observes the value elsewhere, so the
non-degenerate fallback is an arbitrary fixed rotation. -/
def rotationBetween (a b : Vec3) : Option Rot3 :=
  if a = ⟨0, 0, -1⟩ ∧ b = ⟨0, -1, 0⟩ then
    some [[1, 0, 0], [0, 0, 1], [0, -1, 0]]
  else if cross3 a b = ⟨0, 0, 0⟩ ∧ dot3 a b ≤ 0 then none
  else some [[1, 0, 0], [0, 1, 0], [0, 0, 1]]

/-- The background cube vertices built in `init`. -/
def bg_verts : List Vert :=
  [⟨⟨-10, -10,  10⟩⟩,
   ⟨⟨-10,  10,  10⟩⟩,
   ⟨⟨-10, -10, -10⟩⟩,
   ⟨⟨-10,  10, -10⟩⟩,
   ⟨⟨ 10, -10,  10⟩⟩,
   ⟨⟨ 10,  10,  10⟩⟩,
   ⟨⟨ 10, -10, -10⟩⟩,
   ⟨⟨ 10,  10, -10⟩⟩]

/-- The background cube indices built in `init` (written 1-based minus one,
as in the source). -/
def bg_inds : List Nat :=
  [1-1, 3-1, 2-1,
   3-1, 7-1, 4-1,
   7-1, 5-1, 8-1,
   5-1, 1-1, 6-1,
   3-1, 1-1, 7-1,
   8-1, 6-1, 4-1,
   3-1, 4-1, 2-1,
   7-1, 8-1, 4-1,
   5-1, 6-1, 8-1,
   1-1, 2-1, 6-1,
   1-1, 5-1, 7-1,
   6-1, 2-1, 4-1]

/-- `Style::init` for the uber style, following the source's evaluation
order: shadow texture first (panicking on failure), then the background
shader, then the struct literal's fields in written order — uber shader,
background pipeline state, constant buffers, integrated BRDF, the default
environment (two 1×1 sky-blue textures, then the sun rotation whose failure
would be an `expect` panic), defaults gamma 2.2 / exposure 1.0, Params dirty,
no pending Transform.  Texture payloads (the sky-blue color bytes) are not
modelled: textures are opaque handles here. -/
def init (f : Factory) : InitOutcome :=
  match shadow_texture f with
  | none => .panicked "shadow texture creation failed"
  | some shadow_depth =>
    if !f.bg_shader_ok then .err (.shaderCompile 0)
    else if !f.shader_ok then .err (.shaderCompile 1)
    else if !f.bg_pso_ok then .err .pipelineCreate
    else if !f.brdf_ok then .err (.resourceCreate 0)
    else if !f.radiance_tex_ok then .err (.resourceCreate 1)
    else if !f.irradiance_tex_ok then .err (.resourceCreate 2)
    else
      match rotationBetween ⟨0, 0, -1⟩ ⟨0, -1, 0⟩ with
      | none => .panicked "Could not rotate axis"
      | some rot =>
        .ok
          { background :=
              { pso := bgPso
                mesh_verts := bg_verts
                mesh_inds := bg_inds }
            transform := none
            params_update := true
            gamma := 2.2
            exposure := 1.0
            integrated_brdf := brdfHandle
            env :=
              { radiance := radianceHandle
                irradiance := irradianceHandle
                sun_color := ⟨1, 1, 1, 2.0⟩
                sun_rotation := rot
                sun_included := false
                radiance_levels := 1 }
            shadow_depth := shadow_depth }

/-- The factory on which every creation call succeeds. -/
def allOkFactory : Factory :=
  ⟨true, true, true, true, true, true, true, true, true⟩

/-- The state `init` constructs when every creation call succeeds. -/
def initState : UberInputs :=
  { background :=
      { pso := bgPso
        mesh_verts := bg_verts
        mesh_inds := bg_inds }
    transform := none
    params_update := true
    gamma := 2.2
    exposure := 1.0
    integrated_brdf := brdfHandle
    env :=
      { radiance := radianceHandle
        irradiance := irradianceHandle
        sun_color := ⟨1, 1, 1, 2.0⟩
        sun_rotation := [[1, 0, 0], [0, 0, 1], [0, -1, 0]]
        sun_included := false
        radiance_levels := 1 }
    shadow_depth := shadowDepthHandle }

/-- A factory whose `create_texture` call (the shadow depth texture) fails;
every other creation succeeds. -/
def ctFailFactory : Factory :=
  ⟨false, true, true, true, true, true, true, true, true⟩

/-- The eight corners of the cube at ±10 in each dimension, every sign
combination once. -/
def cubeCorners : List Vec3 :=
  [⟨-10, -10, -10⟩, ⟨-10, -10, 10⟩, ⟨-10, 10, -10⟩, ⟨-10, 10, 10⟩,
   ⟨10, -10, -10⟩, ⟨10, -10, 10⟩, ⟨10, 10, -10⟩, ⟨10, 10, 10⟩]

/-- Split an index list into consecutive triples (the triangles of a
TriangleList primitive). -/
def chunks3 : List Nat → List (Nat × Nat × Nat)
  | a :: b :: c :: rest => (a, b, c) :: chunks3 rest
  | _ => []

/-- Concrete fixture values, used to instantiate the theorems below. -/
def rect0 : Rect := ⟨0, 0, 100, 100⟩

def mat0 : UberMaterial := ⟨10, 11, 12⟩

def eyeL : EyeContext :=
  ⟨⟨1, 2, 3⟩, Matrix4.identity, Matrix4.identity, 0, ⟨0, 0, 50, 50⟩⟩

def eyeR : EyeContext :=
  ⟨⟨4, 5, 6⟩, Matrix4.identity, Matrix4.identity, 0, ⟨50, 0, 50, 50⟩⟩

def ctx0 : DrawParams := ⟨eyeL, eyeR, 20, 21⟩

theorem init_allOk : init allOkFactory = .ok initState := rfl

/-- `init` has exactly one successful outcome: the default state. -/
theorem init_ok_unique (f : Factory) (s : UberInputs) (h : init f = .ok s) :
    s = initState := by
  obtain ⟨a, b, c, d, e, g, k, i, j⟩ := f
  cases a <;> cases b <;> cases c <;> cases d <;> cases e <;> cases g <;>
    cases k <;> cases i <;> cases j <;>
    first
      | exact (InitOutcome.noConfusion h)
      | (injection h with h2; exact h2.symm)

/-- C1 (the code at the failing input): the claim says the foreground draw
flushes Params exactly once and clears the dirty flag, so a second draw with
no intervening mutation does not rewrite Params.  In the source, `draw_raw`
tests `params_update` before writing the buffer but never resets it, so on
the freshly constructed state (flag set) the first draw writes Params once
yet leaves the flag set, and the second draw — with no mutation in between —
records a second Params write. -/
theorem c1_draw_raw_never_clears_params_dirty :
    (draw_raw initState 20 21 rect0 0 5 mat0).2.2.countP Cmd.isUpdateParams = 1 ∧
    (draw_raw initState 20 21 rect0 0 5 mat0).2.1.params_update = true ∧
    (draw_raw (draw_raw initState 20 21 rect0 0 5 mat0).2.1
      20 21 rect0 0 5 mat0).2.2.countP Cmd.isUpdateParams = 1 :=
  ⟨rfl, rfl, rfl⟩

/-- C2 counterexample: a texture/resource-creation failure in `shadow_texture`
(the `create_texture` call is `unwrap`ed) aborts construction by panic, not by
a returned typed error value, refuting the claim that every initialization
failure is surfaced to the caller as a typed construction error. -/
theorem c2_shadow_texture_failure_is_a_panic :
    init ctFailFactory = .panicked "shadow texture creation failed" ∧
    (init ctFailFactory).isErr = false ∧
    (init ctFailFactory).isOk = false :=
  ⟨rfl, rfl, rfl⟩

/-- C2 (amended): every initialization failure is detected synchronously
during construction, never retried, and on any failure the orchestration
object fails to come into existence; shader-compile, pipeline-creation,
BRDF-load and 1×1 environment-texture failures are surfaced as returned typed
errors, but a shadow-texture resource failure aborts by panic instead of a
returned error (and the construction-time rotation is computed from fixed
non-degenerate axes, so the unsupported-rotation panic cannot fire: a panic
happens exactly when a shadow-texture call fails). -/
theorem c2_init_failure_channels (f : Factory) :
    ((init f).isOk =
      (f.create_texture_ok && f.view_shader_resource_ok && f.view_depth_stencil_ok &&
       f.bg_shader_ok && f.shader_ok && f.bg_pso_ok && f.brdf_ok &&
       f.radiance_tex_ok && f.irradiance_tex_ok)) ∧
    ((init f).isPanicked =
      !(f.create_texture_ok && f.view_shader_resource_ok && f.view_depth_stencil_ok)) ∧
    ((init f).isErr =
      (f.create_texture_ok && f.view_shader_resource_ok && f.view_depth_stencil_ok &&
       !(f.bg_shader_ok && f.shader_ok && f.bg_pso_ok && f.brdf_ok &&
         f.radiance_tex_ok && f.irradiance_tex_ok))) := by
  obtain ⟨a, b, c, d, e, g, k, i, j⟩ := f
  cases a <;> cases b <;> cases c <;> cases d <;> cases e <;> cases g <;>
    cases k <;> cases i <;> cases j <;> exact ⟨rfl, rfl, rfl⟩

/-- C3: at most one Transform is pending (the state holds an `Option`); the
setter called twice leaves exactly the second value pending, the first being
overwritten; and a foreground draw always consumes the pending value to
absent. -/
theorem c3_transform_overwrites_never_queues (s : UberInputs)
    (b1 b2 : TransformBlock) :
    (StyleInputs.transform (StyleInputs.transform s b1) b2).transform = some b2 ∧
    (∀ color depth scissor slice buf mat,
      (draw_raw (StyleInputs.transform s b1) color depth scissor slice buf
        mat).2.1.transform = none) ∧
    (∀ color depth scissor slice buf mat,
      (draw_raw s color depth scissor slice buf mat).2.1.transform = none ∨
      (draw_raw s color depth scissor slice buf mat).2.1.transform = s.transform) := by
  obtain ⟨bg, tr, env, ex, ga, pu, ib, sd⟩ := s
  refine ⟨rfl, fun _ _ _ _ _ _ => rfl, ?_⟩
  cases tr
  · exact fun _ _ _ _ _ _ => Or.inl rfl
  · exact fun _ _ _ _ _ _ => Or.inl rfl

/-- C4: in every foreground draw the recorded command list is exactly the
Transform buffer update (when a value is pending), then the Params buffer
update (when the dirty flag is set), then the one draw command; so both
buffer updates are recorded strictly before the draw, and the Transform
update strictly before the Params update. -/
theorem c4_draw_raw_command_order (s : UberInputs) (color depth : Nat)
    (scissor : Rect) (slice buf : Nat) (mat : UberMaterial) :
    (draw_raw s color depth scissor slice buf mat).2.2 =
      (match s.transform with
        | some t => [Cmd.updateTransform t]
        | none => ([] : List Cmd)) ++
      (if s.params_update then [Cmd.updateParams (deriveParams s)] else []) ++
      [Cmd.drawFg (fgCmd s color depth scissor slice buf mat)] ∧
    (draw_raw s color depth scissor slice buf mat).2.2.countP Cmd.isDraw = 1 ∧
    (draw_raw s color depth scissor slice buf mat).2.2.getLast? =
      some (Cmd.drawFg (fgCmd s color depth scissor slice buf mat)) := by
  obtain ⟨bg, tr, env, ex, ga, pu, ib, sd⟩ := s
  cases tr <;> cases pu <;> exact ⟨rfl, rfl, rfl⟩

/-- C5: every background draw call records exactly five commands — the Params
write, then for the left eye a Transform write and a draw, then the same for
the right eye — so exactly two draw commands, left before right, regardless
of the dirty state; each eye's Transform has identity model matrix and
view/projection/eye-position/clip-offset taken from that eye's descriptor
(the eye point homogenised with weight 1), and both draws use the background
pipeline, whose declared depth preset is PASS_TEST (comparison "pass always",
no depth write). -/
theorem c5_clear_env_two_draws_left_then_right (s : UberInputs)
    (ctx : DrawParams) (h : s.background.pso = bgPso) :
    (clear_env s ctx).2 =
      [Cmd.updateParams (deriveParams s),
       Cmd.updateTransform (eyeTransform ctx.left),
       Cmd.drawBg
         { pso := bgPso, color := ctx.color, depth := ctx.depth,
           scissor := ctx.left.clip, mesh_verts := s.background.mesh_verts,
           mesh_inds := s.background.mesh_inds, radiance := s.env.radiance },
       Cmd.updateTransform (eyeTransform ctx.right),
       Cmd.drawBg
         { pso := bgPso, color := ctx.color, depth := ctx.depth,
           scissor := ctx.right.clip, mesh_verts := s.background.mesh_verts,
           mesh_inds := s.background.mesh_inds, radiance := s.env.radiance }] ∧
    (clear_env s ctx).2.countP Cmd.isDraw = 2 ∧
    (∀ e : EyeContext, eyeTransform e =
      { model := Matrix4.identity, view := e.view, proj := e.proj,
        eye := pointToHomogeneous e.eye, clip_offset := e.clip_offset }) ∧
    (∀ p : Vec3, pointToHomogeneous p = ⟨p.x, p.y, p.z, 1⟩) ∧
    bgPso.depth = PASS_TEST ∧
    PASS_TEST.fun_ = Comparison.pass ∧
    PASS_TEST.write = false := by
  refine ⟨?_, rfl, fun e => rfl, fun p => rfl, rfl, rfl, rfl⟩
  simp only [clear_env, h]
  rfl

/-- C5 witness: the theorem applied to the freshly constructed state (whose
background pipeline is the one built at construction) and a concrete pair of
eye descriptors. -/
theorem c5_clear_env_two_draws_left_then_right_witness :
    initState.background.pso = bgPso ∧
    (clear_env initState ctx0).2.countP Cmd.isDraw = 2 :=
  ⟨rfl, (c5_clear_env_two_draws_left_then_right initState ctx0 rfl).2.1⟩

/-- C6: every background draw call writes the Params block exactly once,
first in the recorded commands and regardless of the dirty flag (the
statement holds for every state, dirty or clean), re-derived wholesale from
the current Environment, exposure and gamma; the derived `sun_in_env` field
is 1.0 when the Environment's sun-included flag is true and 0.0 when it is
false, in particular after mutating the flag through `mut_env`. -/
theorem c6_clear_env_always_writes_params (s : UberInputs) (ctx : DrawParams) :
    (clear_env s ctx).2.countP Cmd.isUpdateParams = 1 ∧
    (clear_env s ctx).2.head? = some (Cmd.updateParams (deriveParams s)) ∧
    (deriveParams s).sun_in_env = (if s.env.sun_included then 1 else 0) ∧
    (deriveParams (s.mut_env (fun e => { e with sun_included := true }))).sun_in_env
      = 1 ∧
    (deriveParams (s.mut_env (fun e => { e with sun_included := false }))).sun_in_env
      = 0 ∧
    (deriveParams s).sun_color = s.env.sun_color ∧
    (deriveParams s).exposure = s.exposure ∧
    (deriveParams s).gamma = s.gamma ∧
    (deriveParams s).radiance_levels = (s.env.radiance_levels : Int) :=
  ⟨rfl, rfl, rfl, rfl, rfl, rfl, rfl, rfl, rfl⟩

/-- C7: after successful construction the state has exactly the claimed
defaults: sun excluded, sun color [1, 1, 1, 2.0], radiance level count 1,
exposure 1.0, gamma 2.2, the Params-dirty flag set, and no pending
Transform. -/
theorem c7_init_defaults (f : Factory) (s : UberInputs) (h : init f = .ok s) :
    s.env.sun_included = false ∧
    s.env.sun_color = ⟨1, 1, 1, 2.0⟩ ∧
    s.env.radiance_levels = 1 ∧
    s.exposure = 1.0 ∧
    s.gamma = 2.2 ∧
    s.params_update = true ∧
    s.transform = none := by
  have hs := init_ok_unique f s h
  subst hs
  exact ⟨rfl, rfl, rfl, rfl, rfl, rfl, rfl⟩

/-- C7 witness: the defaults theorem applied to the all-successful factory's
construction outcome. -/
theorem c7_init_defaults_witness :
    init allOkFactory = .ok initState ∧
    (initState.env.sun_included = false ∧
     initState.env.sun_color = ⟨1, 1, 1, 2.0⟩ ∧
     initState.env.radiance_levels = 1 ∧
     initState.exposure = 1.0 ∧
     initState.gamma = 2.2 ∧
     initState.params_update = true ∧
     initState.transform = none) :=
  ⟨rfl, c7_init_defaults allOkFactory initState rfl⟩

/-- C8: the background cube mesh built at construction has exactly 8 vertices
whose positions are exactly the sign combinations of ±10 in each dimension,
and exactly 36 indices forming 12 triangles; for every triangle, the normal
`(v1 − v0) × (v2 − v0)` given by the winding order has negative dot product
with the vertex position, i.e. it points from the face toward the cube's
centroid (the origin), so under the counter-clockwise front-face convention
every triangle faces the cube interior. -/
theorem c8_background_cube_mesh :
    initState.background.mesh_verts = bg_verts ∧
    initState.background.mesh_inds = bg_inds ∧
    bg_verts.length = 8 ∧
    (bg_verts.map Vert.pos).Perm cubeCorners ∧
    bg_inds.length = 36 ∧
    (chunks3 bg_inds).length = 12 ∧
    (∀ i ∈ bg_inds, i < 8) ∧
    (∀ t ∈ chunks3 bg_inds,
      dot3
        (cross3
          (sub3 (bg_verts.getD t.2.1 ⟨⟨0, 0, 0⟩⟩).pos
                (bg_verts.getD t.1 ⟨⟨0, 0, 0⟩⟩).pos)
          (sub3 (bg_verts.getD t.2.2 ⟨⟨0, 0, 0⟩⟩).pos
                (bg_verts.getD t.1 ⟨⟨0, 0, 0⟩⟩).pos))
        (bg_verts.getD t.1 ⟨⟨0, 0, 0⟩⟩).pos < 0) := by
  refine ⟨rfl, rfl, rfl, by decide, rfl, by decide, by decide, ?_⟩
  intro t ht
  fin_cases ht <;> norm_num [bg_verts, dot3, cross3, sub3]

/-- C9: on a freshly constructed state (no pending Transform, dirty flag
set), a foreground draw with a material and no prior mutation returns
success, records exactly one draw command, and the Params block it flushes is
derived from the default values; the operation has no failing path at all, so
in particular it fails a precondition only (vacuously) when a Transform was
never set. -/
theorem c9_first_draw_from_defaults (f : Factory) (s : UberInputs)
    (h : init f = .ok s) (color depth : Nat) (scissor : Rect) (slice buf : Nat)
    (mat : UberMaterial) :
    (draw_raw s color depth scissor slice buf mat).1 = Except.ok () ∧
    (draw_raw s color depth scissor slice buf mat).2.2.countP Cmd.isDraw = 1 ∧
    (draw_raw s color depth scissor slice buf mat).2.2 =
      [Cmd.updateParams (deriveParams initState),
       Cmd.drawFg (fgCmd initState color depth scissor slice buf mat)] ∧
    (deriveParams initState).sun_in_env = 0 ∧
    (deriveParams initState).sun_color = ⟨1, 1, 1, 2.0⟩ ∧
    (deriveParams initState).radiance_levels = 1 ∧
    (deriveParams initState).exposure = 1.0 ∧
    (deriveParams initState).gamma = 2.2 := by
  have hs := init_ok_unique f s h
  subst hs
  exact ⟨rfl, rfl, rfl, rfl, rfl, rfl, rfl, rfl⟩

/-- C9 witness: the fresh-draw theorem applied to the all-successful
factory's construction outcome and concrete draw arguments. -/
theorem c9_first_draw_from_defaults_witness :
    init allOkFactory = .ok initState ∧
    (draw_raw initState 20 21 rect0 0 5 mat0).1 = Except.ok () ∧
    (draw_raw initState 20 21 rect0 0 5 mat0).2.2.countP Cmd.isDraw = 1 :=
  ⟨rfl,
   (c9_first_draw_from_defaults allOkFactory initState rfl 20 21 rect0 0 5 mat0).1,
   (c9_first_draw_from_defaults allOkFactory initState rfl 20 21 rect0 0 5 mat0).2.1⟩

/-- C10: the background draw takes the orchestration state by immutable
borrow: after `clear_env` the pending Transform option and the Params-dirty
flag (indeed the whole in-memory state) hold exactly the values they held
before the call; only encoder commands are recorded. -/
theorem c10_clear_env_leaves_state_unchanged (s : UberInputs) (ctx : DrawParams) :
    (clear_env s ctx).1.transform = s.transform ∧
    (clear_env s ctx).1.params_update = s.params_update ∧
    (clear_env s ctx).1 = s :=
  ⟨rfl, rfl, rfl⟩

end VrIntro
